import Mathlib

/-!
Shallow embedding of the collaboration server in src/server/index.js.

Conventions of the embedding:
* JS strings are modelled as `List Char` (a document is a sequence of code
  units indexed by operation positions); timestamps are `Nat`.
* JS numbers occurring as operation positions and lengths are modelled as
  `Int` (so the negative-position checks of the source are meaningful).
* JS `Map` objects are modelled as association lists with insert-or-replace
  (`mset`), first-hit lookup (`mget`) and delete (`merase`), which matches
  the JS Map operations used by the server.
* Methods that `throw` are modelled with `Except String`; a method that can
  mutate before throwing returns the partially mutated state next to the
  `Except` so the mutation order of the source is visible.
* Handlers return the new server state together with the acknowledgement
  payload and the list of messages emitted to sockets.
-/

namespace Codelive

/-- Association-list lookup, mirroring JS Map.get (first matching key). -/
def mget {α : Type} (m : List (String × α)) (k : String) : Option α :=
  match m with
  | [] => none
  | (k1, v) :: rest => if k1 = k then some v else mget rest k

/-- Association-list insert-or-replace, mirroring JS Map.set. -/
def mset {α : Type} (m : List (String × α)) (k : String) (v : α) :
    List (String × α) :=
  match m with
  | [] => [(k, v)]
  | (k1, v1) :: rest => if k1 = k then (k, v) :: rest else (k1, v1) :: mset rest k v

/-- Association-list removal, mirroring JS Map.delete. -/
def merase {α : Type} (m : List (String × α)) (k : String) :
    List (String × α) :=
  match m with
  | [] => []
  | (k1, v1) :: rest => if k1 = k then rest else (k1, v1) :: merase rest k

/-- Clamped index conversion of JS String.prototype.slice / Array.prototype.slice:
a negative index counts from the end, and the result is clamped to [0, len]. -/
def jsIdx (len : Nat) (i : Int) : Nat :=
  if i < 0 then ((len : Int) + i).toNat else min i.toNat len

/-- JS doc.slice(0, stop). -/
def jsSliceUpTo (doc : List Char) (stop : Int) : List Char :=
  doc.take (jsIdx doc.length stop)

/-- JS doc.slice(start) (from start to the end). -/
def jsSliceFrom (doc : List Char) (start : Int) : List Char :=
  doc.drop (jsIdx doc.length start)

/-- JS String.prototype.toUpperCase, written structurally over the character
list (on the ASCII room ids of the server this agrees with toUpperCase). -/
def jsToUpper (s : String) : String := String.mk (s.data.map Char.toUpper)

/-- Document operation, as received in a document-operation payload.
The three recognised type tags are constructors; `unknown` stands for any
other value of the JS type field. -/
inductive Op where
  | insert (position : Int) (content : List Char)
  | delete (position : Int) (length : Int)
  | retain (position : Int) (length : Int)
  | unknown (type : String)
deriving DecidableEq

/-- A client-sent operation: the kind-specific fields of the tag, the client's
optional id field and optional client timestamp. -/
structure ClientOp where
  base : Op
  opId : Option String
  clientTimestamp : Option Nat
deriving DecidableEq

/-- The operation after the server stamps userId, timestamp and roomId onto it
(spread in the document-operation handler). -/
structure EnhancedOp where
  base : Op
  opId : Option String
  userId : String
  timestamp : Nat
  roomId : String
deriving DecidableEq

/-- A history entry: the (enhanced) operation together with appliedAt. -/
structure HistEntry where
  eop : EnhancedOp
  appliedAt : Nat
deriving DecidableEq

/-- The user data built by the create-room / join-room handlers before the
room stamps joinedAt / lastSeen. -/
structure UserInput where
  id : String
  name : String
  color : String
  cursor : Nat × Nat
deriving DecidableEq

/-- A member's presence record as stored in Room.users. -/
structure UserData where
  id : String
  name : String
  color : String
  cursor : Nat × Nat
  joinedAt : Nat
  lastSeen : Nat
deriving DecidableEq

/-- An entry of getUserList: presence with isActive computed at call time. -/
structure UserInfo where
  id : String
  name : String
  color : String
  cursor : Nat × Nat
  joinedAt : Nat
  isActive : Bool
deriving DecidableEq

/-- The record returned by Room.getStats. -/
structure RoomStats where
  id : String
  userCount : Nat
  maxUsers : Nat
  documentLength : Nat
  operationCount : Nat
  createdAt : Nat
  lastActivity : Nat
  isActive : Bool
deriving DecidableEq

/-- The record returned by Room.applyOperation on success. -/
structure ApplyResult where
  success : Bool
  previousLength : Nat
  newLength : Nat
deriving DecidableEq

/-- The Room class state. -/
structure Room where
  id : String
  document : List Char
  users : List (String × UserData)
  operations : List HistEntry
  createdAt : Nat
  lastActivity : Nat
  maxUsers : Nat
deriving DecidableEq

/-- The fixed welcome document of the Room constructor. -/
def welcomeDocument : List Char :=
  ("// Welcome to the collaborative editor!\n// Start typing to see real-time collaboration in action\n\nconsole.log(\"Hello, collaborative world!\");").data

/-- The Room constructor. -/
def Room.new (id : String) (now : Nat) : Room :=
  { id := id
    document := welcomeDocument
    users := []
    operations := []
    createdAt := now
    lastActivity := now
    maxUsers := 10 }

/-- Room.addUser: capacity check, user-data check, then insert with stamped
joinedAt / lastSeen and a lastActivity bump. Throws are modelled as errors;
both checks precede every mutation in the source. -/
def Room.addUser (room : Room) (userId : String) (ud : UserInput) (now : Nat) :
    Except String Room :=
  if room.users.length ≥ room.maxUsers then
    .error "Room is full"
  else if ud.name = "" ∨ ud.color = "" then
    .error "Invalid user data"
  else
    .ok { room with
            users := mset room.users userId
              { id := ud.id, name := ud.name, color := ud.color,
                cursor := ud.cursor, joinedAt := now, lastSeen := now }
            lastActivity := now }

/-- Room.removeUser: idempotent removal returning the removed presence. -/
def Room.removeUser (room : Room) (userId : String) (now : Nat) :
    Room × Option UserData :=
  match mget room.users userId with
  | none => (room, none)
  | some u =>
      ({ room with users := merase room.users userId, lastActivity := now },
       some u)

/-- Room.updateUserActivity: sets lastSeen of the member if present. -/
def Room.updateUserActivity (room : Room) (userId : String) (now : Nat) : Room :=
  match mget room.users userId with
  | none => room
  | some u =>
      { room with users := mset room.users userId { u with lastSeen := now } }

/-- Room.isValidOperation: the validity predicate over the current document.
The source first checks the type tag, then the position bounds, then the
kind-specific fields. -/
def Room.isValidOperation (room : Room) (op : Op) : Bool :=
  match op with
  | .insert p c =>
      decide (0 ≤ p) && decide (p ≤ (room.document.length : Int)) &&
      decide (0 < c.length)
  | .delete p l =>
      decide (0 ≤ p) && decide (p ≤ (room.document.length : Int)) &&
      decide (0 < l) && decide (p + l ≤ (room.document.length : Int))
  | .retain p l =>
      decide (0 ≤ p) && decide (p ≤ (room.document.length : Int)) &&
      decide (0 < l)
  | .unknown _ => false

/-- The body of the try block of Room.applyOperationToDocument: the three
splices, and the throw of the default branch for an unknown type tag. -/
def tryApplyToDocument (doc : List Char) (op : Op) : Except String (List Char) :=
  match op with
  | .insert p c => .ok (jsSliceUpTo doc p ++ c ++ jsSliceFrom doc p)
  | .delete p l => .ok (jsSliceUpTo doc p ++ jsSliceFrom doc (p + l))
  | .retain _ _ => .ok doc
  | .unknown t => .error ("Unknown operation type: " ++ t)

/-- Room.applyOperationToDocument: the try body with its catch, which
returns the original document on any error. -/
def applyOperationToDocument (doc : List Char) (op : Op) : List Char :=
  match tryApplyToDocument doc op with
  | .ok d => d
  | .error _ => doc

/-- Room.applyOperation: throws Invalid operation when validation fails
(before any mutation), otherwise appends the history entry, truncates the
history to the last 1000 entries when it exceeds 1000, applies the splice,
bumps lastActivity, and returns previous and new lengths. The returned room
is the room after whatever mutations happened before the return or throw. -/
def Room.applyOperation (room : Room) (e : EnhancedOp) (now : Nat) :
    Room × Except String ApplyResult :=
  if !(room.isValidOperation e.base) then
    (room, .error "Invalid operation")
  else
    let ops1 := room.operations ++ [{ eop := e, appliedAt := now }]
    let ops2 := if ops1.length > 1000 then ops1.drop (ops1.length - 1000) else ops1
    let prev := room.document
    let newDoc := applyOperationToDocument prev e.base
    ({ room with operations := ops2, document := newDoc, lastActivity := now },
     .ok { success := true, previousLength := prev.length,
           newLength := newDoc.length })

/-- Room.getUserList: snapshot with isActive = seen within the last 30 s. -/
def Room.getUserList (room : Room) (now : Nat) : List UserInfo :=
  room.users.map fun p =>
    { id := p.2.id, name := p.2.name, color := p.2.color, cursor := p.2.cursor,
      joinedAt := p.2.joinedAt,
      isActive := decide ((now : Int) - p.2.lastSeen < 30000) }

/-- Room.getStats. -/
def Room.getStats (room : Room) (now : Nat) : RoomStats :=
  { id := room.id
    userCount := room.users.length
    maxUsers := room.maxUsers
    documentLength := room.document.length
    operationCount := room.operations.length
    createdAt := room.createdAt
    lastActivity := room.lastActivity
    isActive := decide ((now : Int) - room.lastActivity < 300000) }

/-- Room.shouldCleanup: empty and idle for more than 30 minutes. -/
def Room.shouldCleanup (room : Room) (now : Nat) : Bool :=
  room.users.length = 0 && decide ((now : Int) - room.lastActivity > 30 * 60 * 1000)

/-- The fixed 12-color palette. -/
def userColors : List String :=
  ["#FF6B6B", "#4ECDC4", "#45B7D1", "#96CEB4",
   "#FFEAA7", "#DDA0DD", "#98D8C8", "#F7DC6F",
   "#FF8A80", "#82B1FF", "#B39DDB", "#A5D6A7"]

/-- getNextUserColor reads userColors at colorIndex modulo the palette size
(the process-global counter is threaded explicitly as its current value). -/
def getNextUserColor (colorIndex : Nat) : String :=
  userColors.getD (colorIndex % userColors.length) ""

/-- The fixed 12-name pool. -/
def userNames : List String :=
  ["Alice", "Bob", "Charlie", "Diana", "Eve", "Frank",
   "Grace", "Henry", "Ivy", "Jack", "Kate", "Leo"]

/-- generateUserName: pool entry at existingCount, else User (count+1). -/
def generateUserName (existingCount : Nat) : String :=
  if existingCount < userNames.length then userNames.getD existingCount ""
  else "User " ++ toString (existingCount + 1)

/-- The JS idiom userName-or-generated: a missing or empty (falsy) supplied
name falls back to generateUserName. -/
def chooseName (userName : Option String) (existingCount : Nat) : String :=
  match userName with
  | none => generateUserName existingCount
  | some s => if s = "" then generateUserName existingCount else s

/-- The value placed in operationId fields: the operation's id when it is a
truthy string, else its timestamp. -/
inductive OpIdVal where
  | strId (s : String)
  | tsId (n : Nat)
deriving DecidableEq

/-- operationId of an operation-ack: enhanced id-or-timestamp (the stamped
server timestamp is always present). -/
def ackOpId (e : EnhancedOp) : OpIdVal :=
  match e.opId with
  | some s => if s = "" then .tsId e.timestamp else .strId s
  | none => .tsId e.timestamp

/-- operationId of an operation-error: the raw client operation's
id-or-timestamp; absent when the client supplied neither. -/
def errOpId (c : ClientOp) : Option OpIdVal :=
  match c.opId with
  | some s =>
      if s = "" then c.clientTimestamp.map OpIdVal.tsId else some (.strId s)
  | none => c.clientTimestamp.map OpIdVal.tsId

/-- Server-to-client messages emitted by the modelled handlers. -/
inductive ServerMsg where
  | userJoined (user : UserInput) (userCount : Nat)
  | userLeft (sessionId : String)
  | documentUpdate (op : EnhancedOp)
  | operationAck (success : Bool) (operationId : OpIdVal) (operation : EnhancedOp)
  | operationError (error : String) (operation : ClientOp)
      (operationId : Option OpIdVal)
deriving DecidableEq

/-- An emission: either socket.to(roomId).emit (every member of the room
except the acting socket) or socket.emit (the acting socket itself). -/
inductive Emit where
  | toRoomExceptSelf (roomId : String) (msg : ServerMsg)
  | toSelf (msg : ServerMsg)
deriving DecidableEq

/-- A connection session: socket.id and the socket.roomId binding. -/
structure Socket where
  sid : String
  roomId : Option String
deriving DecidableEq

/-- The process-wide state: the rooms Map and the global color counter. -/
structure ServerState where
  rooms : List (String × Room)
  colorIndex : Nat
deriving DecidableEq

/-- Acknowledgement of create-room (the callback payload; always success in
the source handler). -/
structure CreateAck where
  success : Bool
  roomId : String
  document : List Char
  users : List UserInfo
  user : UserInput
  roomStats : RoomStats
deriving DecidableEq

/-- Acknowledgement of join-room. The rejoin branch replies without
documentVersion and with the stored presence record; the normal branch
replies with the fresh user data and documentVersion. -/
inductive JoinAck where
  | failure (error : String)
  | successRejoin (document : List Char) (users : List UserInfo)
      (user : Option UserData) (roomStats : RoomStats)
  | successJoin (document : List Char) (users : List UserInfo)
      (user : UserInput) (roomStats : RoomStats) (documentVersion : Nat)
deriving DecidableEq

/-- Stamping of the server metadata onto a client operation (the spread in
the document-operation handler, overriding userId, timestamp, roomId). -/
def enhance (c : ClientOp) (userId : String) (roomId : String) (now : Nat) :
    EnhancedOp :=
  { base := c.base, opId := c.opId, userId := userId, timestamp := now,
    roomId := roomId }

/-- The create-room handler. The fresh id produced by generateRoomId is a
parameter. The handler never consults sock.roomId: it creates the room,
builds the user data (consuming a color), adds the creator, joins the socket
and overwrites its binding. If addUser threw, the callback would never run
(ack is none) and the binding would be left unchanged. -/
def handleCreateRoom (st : ServerState) (sock : Socket)
    (userName : Option String) (newId : String) (now : Nat) :
    ServerState × Socket × Option CreateAck × List Emit :=
  let room := Room.new newId now
  let st1 : ServerState := { st with rooms := mset st.rooms newId room }
  let ud : UserInput :=
    { id := sock.sid, name := chooseName userName 0,
      color := getNextUserColor st1.colorIndex, cursor := (0, 0) }
  let st2 : ServerState := { st1 with colorIndex := st1.colorIndex + 1 }
  match room.addUser sock.sid ud now with
  | .error _ => (st2, sock, none, [])
  | .ok room1 =>
      ({ st2 with rooms := mset st2.rooms newId room1 },
       { sock with roomId := some newId },
       some { success := true, roomId := newId, document := room1.document,
              users := room1.getUserList now, user := ud,
              roomStats := room1.getStats now },
       [])

/-- The join-room handler. rawRoomId is the payload room id (or the legacy
bare string); userName is the payload's optional user name. -/
def handleJoinRoom (st : ServerState) (sock : Socket) (rawRoomId : String)
    (userName : Option String) (now : Nat) :
    ServerState × Socket × JoinAck × List Emit :=
  if rawRoomId.length ≠ 6 then
    (st, sock, .failure "Invalid room ID format", [])
  else
    let roomId := jsToUpper rawRoomId
    match mget st.rooms roomId with
    | none => (st, sock, .failure "Room not found", [])
    | some room =>
        if sock.roomId = some roomId then
          (st, sock,
           .successRejoin room.document (room.getUserList now)
             (mget room.users sock.sid) (room.getStats now),
           [])
        else if sock.roomId ≠ none then
          (st, sock, .failure "Already in a different room", [])
        else
          let existingUserCount := room.users.length
          let ud : UserInput :=
            { id := sock.sid, name := chooseName userName existingUserCount,
              color := getNextUserColor st.colorIndex, cursor := (0, 0) }
          let st1 : ServerState := { st with colorIndex := st.colorIndex + 1 }
          match room.addUser sock.sid ud now with
          | .error e => (st1, sock, .failure e, [])
          | .ok room1 =>
              ({ st1 with rooms := mset st1.rooms roomId room1 },
               { sock with roomId := some roomId },
               .successJoin room1.document (room1.getUserList now) ud
                 (room1.getStats now) room1.operations.length,
               [.toRoomExceptSelf roomId
                  (.userJoined ud room1.users.length)])

/-- The document-operation handler: silently returns when the socket has no
room or the room is gone; otherwise bumps the sender's lastSeen, stamps the
operation, applies it, and either broadcasts document-update plus an
operation-ack, or (when apply threw) sends operation-error to the sender
only. -/
def handleDocumentOperation (st : ServerState) (sock : Socket) (c : ClientOp)
    (now : Nat) : ServerState × List Emit :=
  match sock.roomId with
  | none => (st, [])
  | some rid =>
      match mget st.rooms rid with
      | none => (st, [])
      | some room =>
          let room1 := room.updateUserActivity sock.sid now
          let e := enhance c sock.sid rid now
          let res := room1.applyOperation e now
          match res.2 with
          | .error msg =>
              ({ st with rooms := mset st.rooms rid res.1 },
               [.toSelf (.operationError msg c (errOpId c))])
          | .ok r =>
              ({ st with rooms := mset st.rooms rid res.1 },
               if r.success then
                 [.toRoomExceptSelf rid (.documentUpdate e),
                  .toSelf (.operationAck true (ackOpId e) e)]
               else [])

/-- The disconnect handler: removes the session from its bound room (if
any), emits user-left to the remaining members, and deletes the room when it
became empty. -/
def handleDisconnect (st : ServerState) (sock : Socket) (now : Nat) :
    ServerState × List Emit :=
  match sock.roomId with
  | none => (st, [])
  | some rid =>
      match mget st.rooms rid with
      | none => (st, [])
      | some room =>
          let r := room.removeUser sock.sid now
          let emits := [Emit.toRoomExceptSelf rid (.userLeft sock.sid)]
          if r.1.users.length = 0 then
            ({ st with rooms := merase st.rooms rid }, emits)
          else
            ({ st with rooms := mset st.rooms rid r.1 }, emits)

/-- The periodic sweep: deletes each room whose shouldCleanup holds. -/
def cleanupInactiveRooms (st : ServerState) (now : Nat) : ServerState :=
  { st with rooms := st.rooms.filter fun p => !(p.2.shouldCleanup now) }

/-- Request-independent inputs of the HTTP handlers. -/
structure HttpEnv where
  now : Nat
  uptime : Nat
  memoryUsage : Nat
deriving DecidableEq

/-- The response bodies produced by the three registered GET routes. -/
inductive HttpResponse where
  | healthBasic (status : String) (roomCount : Nat) (timestamp : Nat)
  | healthEnhanced (status : String) (timestamp : Nat) (uptime : Nat)
      (memoryUsage : Nat) (roomCount : Nat) (roomsList : List RoomStats)
  | roomInfo (stats : RoomStats) (users : List UserInfo)
      (recentOperations : List HistEntry)
  | notFound (error : String)
deriving DecidableEq

/-- The first registered /health handler (the basic one). -/
def healthBasicRoute (env : HttpEnv) (st : ServerState) (_path : String) :
    HttpResponse :=
  .healthBasic "ok" st.rooms.length env.now

/-- The second registered /health handler (the enhanced one, registered
later in the file). -/
def healthEnhancedRoute (env : HttpEnv) (st : ServerState) (_path : String) :
    HttpResponse :=
  .healthEnhanced "ok" env.now env.uptime env.memoryUsage st.rooms.length
    (st.rooms.map fun p => p.2.getStats env.now)

/-- The /room/:roomId handler: uppercases the path parameter, 404 when the
room is absent, else stats plus users plus the last 10 history entries. -/
def roomInfoRoute (env : HttpEnv) (st : ServerState) (path : String) :
    HttpResponse :=
  let roomId := jsToUpper (path.drop 6)
  match mget st.rooms roomId with
  | none => .notFound "Room not found"
  | some room =>
      .roomInfo (room.getStats env.now) (room.getUserList env.now)
        (room.operations.drop (room.operations.length - 10))

/-- Split a character list at every slash (the segments of a URL path). -/
def splitSegs : List Char → List Char → List (List Char)
  | [], acc => [acc.reverse]
  | c :: rest, acc =>
      if c = '/' then acc.reverse :: splitSegs rest []
      else splitSegs rest (c :: acc)

/-- Express path-pattern matching for one segment: a pattern segment
starting with a colon is a parameter and matches any non-empty segment,
anything else matches literally. -/
def segMatches (p : List Char) (r : List Char) : Bool :=
  match p with
  | ':' :: _ => !r.isEmpty
  | _ => decide (p = r)

/-- Whether a registered route pattern matches a request path: same number
of slash-separated segments, matched segment-wise. -/
def pathMatches (pattern : String) (req : String) : Bool :=
  let ps := splitSegs pattern.data []
  let rs := splitSegs req.data []
  ps.length = rs.length && (ps.zip rs).all fun pr => segMatches pr.1 pr.2

/-- The GET routes in registration order: /health at line 540, /health again
at line 572, /room/:roomId at line 588. -/
def getRoutes : List (String × (HttpEnv → ServerState → String → HttpResponse)) :=
  [("/health", healthBasicRoute),
   ("/health", healthEnhancedRoute),
   ("/room/:roomId", roomInfoRoute)]

/-- Express dispatch for GET: the first registered route whose pattern
matches the path handles the request (a handler that responds without
calling next ends the chain). -/
def dispatchGet (env : HttpEnv) (st : ServerState) (path : String) :
    Option HttpResponse :=
  match getRoutes.find? (fun r => pathMatches r.1 path) with
  | none => none
  | some r => some (r.2 env st path)

/-- One call against a Room, used to state invariant preservation over call
sequences: the room is left unchanged when the underlying call throws. -/
inductive RoomAction where
  | addU (userId : String) (ud : UserInput)
  | removeU (userId : String)
  | applyO (e : EnhancedOp)
deriving DecidableEq

/-- Run one Room call of a sequence. -/
def Room.step (room : Room) (a : RoomAction) (now : Nat) : Room :=
  match a with
  | .addU uid ud =>
      match room.addUser uid ud now with
      | .ok r => r
      | .error _ => room
  | .removeU uid => (room.removeUser uid now).1
  | .applyO e => (room.applyOperation e now).1

/-- Run a whole sequence of timestamped Room calls. -/
def Room.run (room : Room) (actions : List (RoomAction × Nat)) : Room :=
  actions.foldl (fun r p => Room.step r p.1 p.2) room

theorem mget_mset_self {α : Type} (m : List (String × α)) (k : String) (v : α) :
    mget (mset m k v) k = some v := by
  induction m with
  | nil => simp [mget, mset]
  | cons h t ih =>
      obtain ⟨k1, v1⟩ := h
      by_cases hk : k1 = k <;> simp [mget, mset, hk, ih]

theorem mget_mset_ne {α : Type} (m : List (String × α)) (k k2 : String) (v : α)
    (h : k2 ≠ k) : mget (mset m k v) k2 = mget m k2 := by
  have hks : ¬ k = k2 := fun hh => h hh.symm
  induction m with
  | nil => simp [mget, mset, hks]
  | cons hd t ih =>
      obtain ⟨k1, v1⟩ := hd
      by_cases hk : k1 = k
      · subst hk
        simp [mget, mset, hks]
      · by_cases hk2 : k1 = k2 <;> simp [mget, mset, hk, hk2, ih, h]

theorem mget_merase_ne {α : Type} (m : List (String × α)) (k k2 : String)
    (h : k2 ≠ k) : mget (merase m k) k2 = mget m k2 := by
  have hks : ¬ k = k2 := fun hh => h hh.symm
  induction m with
  | nil => simp [mget, merase]
  | cons hd t ih =>
      obtain ⟨k1, v1⟩ := hd
      by_cases hk : k1 = k
      · subst hk
        simp [mget, merase, hks]
      · by_cases hk2 : k1 = k2 <;> simp [mget, merase, hk, hk2, ih, h]

theorem mset_mset_absent {α : Type} (m : List (String × α)) (k : String)
    (v w : α) (h : mget m k = none) : mset (mset m k v) k w = mset m k w := by
  induction m with
  | nil => simp [mget, mset]
  | cons hd t ih =>
      obtain ⟨k1, v1⟩ := hd
      by_cases hk : k1 = k
      · simp [mget, hk] at h
      · simp only [mget, if_neg hk] at h
        simp [mset, hk, ih h]

theorem merase_mset_absent {α : Type} (m : List (String × α)) (k : String)
    (v : α) (h : mget m k = none) : merase (mset m k v) k = m := by
  induction m with
  | nil => simp [merase, mset]
  | cons hd t ih =>
      obtain ⟨k1, v1⟩ := hd
      by_cases hk : k1 = k
      · simp [mget, hk] at h
      · simp only [mget, if_neg hk] at h
        simp [mset, merase, hk, ih h]

theorem length_mset_le {α : Type} (m : List (String × α)) (k : String) (v : α) :
    (mset m k v).length ≤ m.length + 1 := by
  induction m with
  | nil => simp [mset]
  | cons hd t ih =>
      obtain ⟨k1, v1⟩ := hd
      by_cases hk : k1 = k <;> simp [mset, hk] <;> omega

theorem length_merase_le {α : Type} (m : List (String × α)) (k : String) :
    (merase m k).length ≤ m.length := by
  induction m with
  | nil => simp [merase]
  | cons hd t ih =>
      obtain ⟨k1, v1⟩ := hd
      by_cases hk : k1 = k <;> simp [merase, hk] <;> omega

theorem applyToDoc_insert (doc : List Char) (p : Int) (c : List Char)
    (h0 : 0 ≤ p) (h1 : p ≤ (doc.length : Int)) :
    applyOperationToDocument doc (.insert p c) =
      doc.take p.toNat ++ c ++ doc.drop p.toNat := by
  have hn : p.toNat ≤ doc.length := by omega
  simp [applyOperationToDocument, tryApplyToDocument, jsSliceUpTo, jsSliceFrom,
    jsIdx, if_neg (by omega : ¬ p < 0), Nat.min_eq_left hn]

theorem applyToDoc_delete (doc : List Char) (p l : Int)
    (h0 : 0 ≤ p) (hl : 0 < l) (h2 : p + l ≤ (doc.length : Int)) :
    applyOperationToDocument doc (.delete p l) =
      doc.take p.toNat ++ doc.drop (p.toNat + l.toNat) := by
  have hn : p.toNat ≤ doc.length := by omega
  have hpl : (p + l).toNat = p.toNat + l.toNat := by omega
  have hn2 : (p + l).toNat ≤ doc.length := by omega
  simp [applyOperationToDocument, tryApplyToDocument, jsSliceUpTo, jsSliceFrom,
    jsIdx, if_neg (by omega : ¬ p < 0), if_neg (by omega : ¬ p + l < 0),
    Nat.min_eq_left hn, Nat.min_eq_left hn2, hpl,
    Nat.min_eq_left (show p.toNat + l.toNat ≤ doc.length by omega)]

theorem applyOperation_invalid (room : Room) (e : EnhancedOp) (now : Nat)
    (h : room.isValidOperation e.base = false) :
    Room.applyOperation room e now = (room, .error "Invalid operation") := by
  simp [Room.applyOperation, h]

theorem applyOperation_error_fst (room : Room) (e : EnhancedOp) (now : Nat)
    (msg : String)
    (h : (Room.applyOperation room e now).2 = .error msg) :
    (Room.applyOperation room e now).1 = room ∧ msg = "Invalid operation" := by
  by_cases hv : room.isValidOperation e.base
  · simp [Room.applyOperation, hv] at h
  · rw [applyOperation_invalid room e now (by simp [hv])] at h ⊢
    simp at h
    simp [h]

theorem updateUserActivity_document (room : Room) (uid : String) (now : Nat) :
    (room.updateUserActivity uid now).document = room.document := by
  unfold Room.updateUserActivity
  split <;> rfl

theorem addUser_error_cases (room : Room) (uid : String) (ud : UserInput)
    (now : Nat) (e : String) (h : room.addUser uid ud now = .error e) :
    e = "Room is full" ∨ e = "Invalid user data" := by
  unfold Room.addUser at h
  split at h
  · simp at h
    simp [h]
  · split at h
    · simp at h
      simp [h]
    · simp at h

/-- Claim C2: the validity predicate holds exactly when the operation's type
is one of insert, delete, retain, its position is a non-negative integer at
most the document length, insert content is non-empty, delete has positive
length fitting inside the document, and retain has positive length.
Numeric operation fields are embedded as integers. -/
theorem claim_C2_isValidOperation (room : Room) (op : Op) :
    room.isValidOperation op = true ↔
      ((∃ p c, op = .insert p c ∧ 0 ≤ p ∧ p ≤ (room.document.length : Int) ∧
          0 < c.length)
       ∨ (∃ p l, op = .delete p l ∧ 0 ≤ p ∧ 0 < l ∧
          p + l ≤ (room.document.length : Int))
       ∨ (∃ p l, op = .retain p l ∧ 0 ≤ p ∧ p ≤ (room.document.length : Int) ∧
          0 < l)) := by
  cases op with
  | insert p c =>
      simp only [Room.isValidOperation, Bool.and_eq_true, decide_eq_true_eq]
      constructor
      · rintro ⟨⟨h0, h1⟩, h2⟩
        exact Or.inl ⟨p, c, rfl, h0, h1, h2⟩
      · rintro (⟨p1, c1, heq, h0, h1, h2⟩ | ⟨p1, l1, heq, _⟩ | ⟨p1, l1, heq, _⟩) <;>
          cases heq
        exact ⟨⟨h0, h1⟩, h2⟩
  | delete p l =>
      simp only [Room.isValidOperation, Bool.and_eq_true, decide_eq_true_eq]
      constructor
      · rintro ⟨⟨⟨h0, h1⟩, h2⟩, h3⟩
        exact Or.inr (Or.inl ⟨p, l, rfl, h0, h2, h3⟩)
      · rintro (⟨p1, c1, heq, _⟩ | ⟨p1, l1, heq, h0, h2, h3⟩ | ⟨p1, l1, heq, _⟩) <;>
          cases heq
        exact ⟨⟨⟨h0, by omega⟩, h2⟩, h3⟩
  | retain p l =>
      simp only [Room.isValidOperation, Bool.and_eq_true, decide_eq_true_eq]
      constructor
      · rintro ⟨⟨h0, h1⟩, h2⟩
        exact Or.inr (Or.inr ⟨p, l, rfl, h0, h1, h2⟩)
      · rintro (⟨p1, c1, heq, _⟩ | ⟨p1, l1, heq, _⟩ | ⟨p1, l1, heq, h0, h1, h2⟩) <;>
          cases heq
        exact ⟨⟨h0, h1⟩, h2⟩
  | unknown t =>
      simp [Room.isValidOperation]

/-- Claim C9: a rejected operation leaves the room exactly as it was:
applyOperation throws Invalid operation before mutating anything, so the
document, the operation history and lastActivity are all unchanged. -/
theorem claim_C9_invalid_atomic (room : Room) (e : EnhancedOp) (now : Nat)
    (h : room.isValidOperation e.base = false) :
    Room.applyOperation room e now = (room, .error "Invalid operation") :=
  applyOperation_invalid room e now h

/-- Claim C1: an accepted operation appends the stamped history entry
(truncating to the last 1000 entries when the length exceeds 1000), splices
the document (insert adds the content at the position, delete removes
length units, retain leaves it unchanged, with the corresponding length
arithmetic), bumps lastActivity, and returns success with the previous and
new document lengths. -/
theorem claim_C1_applyOperation (room : Room) (e : EnhancedOp) (now : Nat)
    (room1 : Room) (res : Except String ApplyResult)
    (hv : room.isValidOperation e.base = true)
    (heq : Room.applyOperation room e now = (room1, res)) :
    res = .ok { success := true, previousLength := room.document.length,
                newLength := room1.document.length }
    ∧ room1.operations =
        (if (room.operations ++ [({ eop := e, appliedAt := now } : HistEntry)]).length > 1000
         then (room.operations ++ [({ eop := e, appliedAt := now } : HistEntry)]).drop
                ((room.operations ++ [({ eop := e, appliedAt := now } : HistEntry)]).length - 1000)
         else room.operations ++ [({ eop := e, appliedAt := now } : HistEntry)])
    ∧ room1.lastActivity = now
    ∧ (∀ p c, e.base = Op.insert p c →
        room1.document = room.document.take p.toNat ++ c ++ room.document.drop p.toNat
        ∧ room1.document.length = room.document.length + c.length)
    ∧ (∀ p l, e.base = Op.delete p l →
        room1.document =
          room.document.take p.toNat ++ room.document.drop (p.toNat + l.toNat)
        ∧ room1.document.length + l.toNat = room.document.length)
    ∧ (∀ p l, e.base = Op.retain p l → room1.document = room.document) := by
  rw [Room.applyOperation, if_neg (by simp [hv])] at heq
  simp only [Prod.mk.injEq] at heq
  obtain ⟨hroom, hres⟩ := heq
  subst hroom
  refine ⟨by simp [← hres], by simp, by simp, ?_, ?_, ?_⟩
  · intro p c hbase
    have hvp := (claim_C2_isValidOperation room e.base).mp hv
    rw [hbase] at hvp
    rcases hvp with ⟨p1, c1, heq1, h0, h1, _⟩ | ⟨p1, l1, heq1, _⟩ | ⟨p1, l1, heq1, _⟩ <;>
      cases heq1
    have happ := applyToDoc_insert room.document p c h0 h1
    constructor
    · simp [hbase, happ]
    · simp [hbase, happ]
      omega
  · intro p l hbase
    have hvp := (claim_C2_isValidOperation room e.base).mp hv
    rw [hbase] at hvp
    rcases hvp with ⟨p1, c1, heq1, _⟩ | ⟨p1, l1, heq1, h0, hl, h2⟩ | ⟨p1, l1, heq1, _⟩ <;>
      cases heq1
    have happ := applyToDoc_delete room.document p l h0 hl h2
    constructor
    · simp [hbase, happ]
    · simp [hbase, happ]
      omega
  · intro p l hbase
    simp [hbase, applyOperationToDocument, tryApplyToDocument]

/-- Witness for claim C1 at a concrete insert into a five-character
document. -/
theorem claim_C1_witness :
    (Room.applyOperation
      { id := "ABC123", document := "hello".data, users := [], operations := [],
        createdAt := 0, lastActivity := 0, maxUsers := 10 }
      { base := .insert 1 "XY".data, opId := some "op1", userId := "u1",
        timestamp := 7, roomId := "ABC123" } 7).2 =
      .ok { success := true, previousLength := 5, newLength := 7 } := by
  have h := claim_C1_applyOperation
    { id := "ABC123", document := "hello".data, users := [], operations := [],
      createdAt := 0, lastActivity := 0, maxUsers := 10 }
    { base := .insert 1 "XY".data, opId := some "op1", userId := "u1",
      timestamp := 7, roomId := "ABC123" } 7
    (Room.applyOperation
      { id := "ABC123", document := "hello".data, users := [], operations := [],
        createdAt := 0, lastActivity := 0, maxUsers := 10 }
      { base := .insert 1 "XY".data, opId := some "op1", userId := "u1",
        timestamp := 7, roomId := "ABC123" } 7).1
    (Room.applyOperation
      { id := "ABC123", document := "hello".data, users := [], operations := [],
        createdAt := 0, lastActivity := 0, maxUsers := 10 }
      { base := .insert 1 "XY".data, opId := some "op1", userId := "u1",
        timestamp := 7, roomId := "ABC123" } 7).2
    (by decide) rfl
  exact h.1.trans (by rfl)

/-- Witness for claim C9 at a concrete out-of-range delete. -/
theorem claim_C9_witness :
    Room.applyOperation
      { id := "ABC123", document := "hello".data, users := [], operations := [],
        createdAt := 0, lastActivity := 0, maxUsers := 10 }
      { base := .delete 5 1, opId := none, userId := "u1", timestamp := 0,
        roomId := "ABC123" } 3 =
      ({ id := "ABC123", document := "hello".data, users := [], operations := [],
         createdAt := 0, lastActivity := 0, maxUsers := 10 },
       .error "Invalid operation") :=
  claim_C9_invalid_atomic _ _ _ (by decide)

/-- Claim C4: a join-room with a 6-character id that is not in the registry
is acknowledged Room not found, and the whole server state and the session
binding are unchanged (and nothing is emitted). -/
theorem claim_C4_join_not_found (st : ServerState) (sock : Socket)
    (raw : String) (userName : Option String) (now : Nat)
    (hlen : raw.length = 6)
    (habsent : mget st.rooms (jsToUpper raw) = none) :
    handleJoinRoom st sock raw userName now =
      (st, sock, .failure "Room not found", []) := by
  rw [handleJoinRoom, if_neg (by simp [hlen])]
  simp [habsent]

/-- Witness for claim C4: joining an absent room on an empty registry. -/
theorem claim_C4_witness :
    handleJoinRoom { rooms := [], colorIndex := 0 }
        { sid := "s1", roomId := none } "ZZZZ99" none 5 =
      ({ rooms := [], colorIndex := 0 }, { sid := "s1", roomId := none },
       .failure "Room not found", []) :=
  claim_C4_join_not_found _ _ _ _ _ (by decide) (by decide)

/-- Claim C5: a join-room naming the room the session is already bound to is
acknowledged with success carrying the current document and member list,
adds no member, changes nothing in the server state or the binding, and
emits no user-joined. -/
theorem claim_C5_rejoin_idempotent (st : ServerState) (sock : Socket)
    (raw : String) (userName : Option String) (now : Nat) (rid : String)
    (room : Room)
    (hlen : raw.length = 6)
    (hup : jsToUpper raw = rid)
    (hroom : mget st.rooms rid = some room)
    (hbound : sock.roomId = some rid) :
    handleJoinRoom st sock raw userName now =
      (st, sock,
       .successRejoin room.document (room.getUserList now)
         (mget room.users sock.sid) (room.getStats now),
       []) := by
  rw [handleJoinRoom, if_neg (by simp [hlen])]
  simp [hup, hroom, hbound]

/-- Witness for claim C5: a session bound to room AAAAAA rejoining it. -/
theorem claim_C5_witness :
    handleJoinRoom
        { rooms := [("AAAAAA",
            { id := "AAAAAA", document := "hi".data,
              users := [("s1",
                { id := "s1", name := "Alice", color := "#FF6B6B",
                  cursor := (0, 0), joinedAt := 0, lastSeen := 0 })],
              operations := [], createdAt := 0, lastActivity := 0,
              maxUsers := 10 })],
          colorIndex := 1 }
        { sid := "s1", roomId := some "AAAAAA" } "aaaaaa" none 4 =
      ({ rooms := [("AAAAAA",
            { id := "AAAAAA", document := "hi".data,
              users := [("s1",
                { id := "s1", name := "Alice", color := "#FF6B6B",
                  cursor := (0, 0), joinedAt := 0, lastSeen := 0 })],
              operations := [], createdAt := 0, lastActivity := 0,
              maxUsers := 10 })],
          colorIndex := 1 },
       { sid := "s1", roomId := some "AAAAAA" },
       .successRejoin "hi".data
         [{ id := "s1", name := "Alice", color := "#FF6B6B", cursor := (0, 0),
            joinedAt := 0, isActive := true }]
         (some { id := "s1", name := "Alice", color := "#FF6B6B",
                 cursor := (0, 0), joinedAt := 0, lastSeen := 0 })
         { id := "AAAAAA", userCount := 1, maxUsers := 10, documentLength := 2,
           operationCount := 0, createdAt := 0, lastActivity := 0,
           isActive := true },
       []) := by
  have h := claim_C5_rejoin_idempotent
    { rooms := [("AAAAAA",
        { id := "AAAAAA", document := "hi".data,
          users := [("s1",
            { id := "s1", name := "Alice", color := "#FF6B6B",
              cursor := (0, 0), joinedAt := 0, lastSeen := 0 })],
          operations := [], createdAt := 0, lastActivity := 0,
          maxUsers := 10 })],
      colorIndex := 1 }
    { sid := "s1", roomId := some "AAAAAA" } "aaaaaa" none 4 "AAAAAA"
    { id := "AAAAAA", document := "hi".data,
      users := [("s1",
        { id := "s1", name := "Alice", color := "#FF6B6B",
          cursor := (0, 0), joinedAt := 0, lastSeen := 0 })],
      operations := [], createdAt := 0, lastActivity := 0, maxUsers := 10 }
    (by decide) (by decide) (by decide) rfl
  exact h.trans (by decide)

/-- Counterexample for claim C7: the six-character id of exclamation marks
is not drawn from the A-Z0-9 alphabet, yet the acknowledgement is Room not
found (the handler checked only the length), not Invalid room ID format as
the claim requires. -/
theorem claim_C7_counterexample :
    (handleJoinRoom { rooms := [], colorIndex := 0 }
        { sid := "s1", roomId := none } "!!!!!!" none 0).2.2.1 =
      .failure "Room not found"
    ∧ (JoinAck.failure "Room not found" ≠
        JoinAck.failure "Invalid room ID format") := by
  constructor
  · decide
  · decide

/-- Claim C7 as amended: only the length is checked at join. An id whose
length is not exactly 6 is acknowledged Invalid room ID format, and that
reply happens for no other reason; a 6-character id (whatever its
characters) is uppercased and looked up in the registry, an absent one
acknowledging Room not found. -/
theorem claim_C7_amended (st : ServerState) (sock : Socket) (raw : String)
    (userName : Option String) (now : Nat) :
    ((handleJoinRoom st sock raw userName now).2.2.1 =
        .failure "Invalid room ID format" ↔ raw.length ≠ 6)
    ∧ (raw.length = 6 → mget st.rooms (jsToUpper raw) = none →
        (handleJoinRoom st sock raw userName now).2.2.1 =
          .failure "Room not found") := by
  constructor
  · by_cases hlen : raw.length = 6
    · simp only [hlen, ne_eq, not_true_eq_false, iff_false]
      rw [handleJoinRoom, if_neg (by simp [hlen])]
      rcases hm : mget st.rooms (jsToUpper raw) with _ | room
      · simp [hm]
      · rcases hsock : sock.roomId with _ | r
        · rcases ha : room.addUser sock.sid
              { id := sock.sid, name := chooseName userName room.users.length,
                color := getNextUserColor st.colorIndex, cursor := (0, 0) } now
              with e | room1
          · rcases addUser_error_cases _ _ _ _ _ ha with h | h <;>
              simp [hm, hsock, ha, h, -Prod.mk_zero_zero]
          · simp [hm, hsock, ha, -Prod.mk_zero_zero]
        · by_cases hr : r = jsToUpper raw
          · simp [hm, hsock, hr]
          · simp [hm, hsock, hr]
    · rw [handleJoinRoom, if_pos (by simp [hlen])]
      simp [hlen]
  · intro hlen habsent
    rw [handleJoinRoom, if_neg (by simp [hlen])]
    simp [habsent]

/-- Witness for claim C7 as amended: a five-character id is rejected with
the format error, and the amended theorem applied to the counterexample id
of exclamation marks gives Room not found. -/
theorem claim_C7_amended_witness :
    ((handleJoinRoom { rooms := [], colorIndex := 0 }
        { sid := "s1", roomId := none } "AB12" none 0).2.2.1 =
      .failure "Invalid room ID format")
    ∧ (handleJoinRoom { rooms := [], colorIndex := 0 }
        { sid := "s1", roomId := none } "!!!!!!" none 0).2.2.1 =
      .failure "Room not found" := by
  constructor
  · exact (claim_C7_amended { rooms := [], colorIndex := 0 }
      { sid := "s1", roomId := none } "AB12" none 0).1.mpr (by decide)
  · exact (claim_C7_amended { rooms := [], colorIndex := 0 }
      { sid := "s1", roomId := none } "!!!!!!" none 0).2 (by decide) (by decide)

/-- Claim C3: whenever the apply step of a document-operation raises an
exception (applyOperationToDocument itself catches internally and cannot
propagate one, so the only exception the apply pipeline can raise is the
validation throw of applyOperation), the room's document is left equal to
its pre-operation contents, the originator alone receives operation-error,
and no document-update is broadcast to the other members. -/
theorem claim_C3_apply_exception (st : ServerState) (sock : Socket)
    (c : ClientOp) (now : Nat) (rid : String) (room : Room) (msg : String)
    (stN : ServerState) (emits : List Emit)
    (hbound : sock.roomId = some rid)
    (hroom : mget st.rooms rid = some room)
    (herr : (Room.applyOperation (room.updateUserActivity sock.sid now)
              (enhance c sock.sid rid now) now).2 = .error msg)
    (heq : handleDocumentOperation st sock c now = (stN, emits)) :
    (mget stN.rooms rid).map Room.document = some room.document
    ∧ emits = [.toSelf (.operationError msg c (errOpId c))]
    ∧ ∀ r m, Emit.toRoomExceptSelf r m ∉ emits := by
  have hfst := applyOperation_error_fst _ _ _ _ herr
  rw [handleDocumentOperation] at heq
  rw [hbound] at heq
  simp only [hroom] at heq
  rw [herr] at heq
  simp only [Prod.mk.injEq] at heq
  obtain ⟨hst, hemits⟩ := heq
  refine ⟨?_, ?_, ?_⟩
  · rw [← hst]
    simp [mget_mset_self, hfst.1, updateUserActivity_document]
  · exact hemits.symm
  · intro r m hmem
    rw [← hemits] at hmem
    simp at hmem

/-- Witness for claim C3: an out-of-range delete in a one-member room. -/
theorem claim_C3_witness :
    (handleDocumentOperation
        { rooms := [("ABC123",
            { id := "ABC123", document := "hello".data, users := [],
              operations := [], createdAt := 0, lastActivity := 0,
              maxUsers := 10 })],
          colorIndex := 0 }
        { sid := "s1", roomId := some "ABC123" }
        { base := .delete 5 1, opId := some "op1", clientTimestamp := none }
        9).2 =
      [.toSelf (.operationError "Invalid operation"
        { base := .delete 5 1, opId := some "op1", clientTimestamp := none }
        (some (.strId "op1")))] := by
  have h := claim_C3_apply_exception
    { rooms := [("ABC123",
        { id := "ABC123", document := "hello".data, users := [],
          operations := [], createdAt := 0, lastActivity := 0,
          maxUsers := 10 })],
      colorIndex := 0 }
    { sid := "s1", roomId := some "ABC123" }
    { base := .delete 5 1, opId := some "op1", clientTimestamp := none }
    9 "ABC123"
    { id := "ABC123", document := "hello".data, users := [], operations := [],
      createdAt := 0, lastActivity := 0, maxUsers := 10 }
    "Invalid operation"
    (handleDocumentOperation
      { rooms := [("ABC123",
          { id := "ABC123", document := "hello".data, users := [],
            operations := [], createdAt := 0, lastActivity := 0,
            maxUsers := 10 })],
        colorIndex := 0 }
      { sid := "s1", roomId := some "ABC123" }
      { base := .delete 5 1, opId := some "op1", clientTimestamp := none }
      9).1
    (handleDocumentOperation
      { rooms := [("ABC123",
          { id := "ABC123", document := "hello".data, users := [],
            operations := [], createdAt := 0, lastActivity := 0,
            maxUsers := 10 })],
        colorIndex := 0 }
      { sid := "s1", roomId := some "ABC123" }
      { base := .delete 5 1, opId := some "op1", clientTimestamp := none }
      9).2
    rfl (by decide) rfl rfl
  exact h.2.1.trans (by decide)

theorem generateUserName_ne_empty (k : Nat) : generateUserName k ≠ "" := by
  rw [generateUserName]
  split
  · rename_i h
    have hh : ∀ i, i < userNames.length → userNames.getD i "" ≠ "" := by decide
    exact hh k h
  · intro hcontra
    have h5 := String.length_append "User " (toString (k + 1))
    rw [hcontra] at h5
    have h6 : "User ".length = 5 := rfl
    have h7 : "".length = 0 := rfl
    omega

theorem chooseName_ne_empty (u : Option String) (k : Nat) :
    chooseName u k ≠ "" := by
  unfold chooseName
  cases u with
  | none => exact generateUserName_ne_empty k
  | some s =>
      dsimp only
      split
      · exact generateUserName_ne_empty k
      · assumption

theorem getNextUserColor_ne_empty (k : Nat) : getNextUserColor k ≠ "" := by
  have h12 : k % userColors.length < userColors.length :=
    Nat.mod_lt _ (by decide)
  have hh : ∀ i, i < userColors.length → userColors.getD i "" ≠ "" := by decide
  rw [getNextUserColor]
  exact hh _ h12

/-- Claim C10: create-room never consults the session's current binding: a
session bound to room X that sends create-room is added to the freshly
created room and its binding is overwritten, while its presence record stays
in X's member map; X's entry in the registry is untouched, no user-left (nor
anything else) is emitted, and a subsequent disconnect removes the session
only from the new room, leaving the registry exactly as before the
create-room (X still holding the stale presence). -/
theorem claim_C10_create_ignores_binding (st : ServerState) (sock : Socket)
    (userName : Option String) (newId : String) (now now2 : Nat)
    (xId : String) (roomX : Room) (uX : UserData) (stN : ServerState)
    (sockN : Socket) (ack : Option CreateAck) (emits : List Emit)
    (hbound : sock.roomId = some xId)
    (hX : mget st.rooms xId = some roomX)
    (hmem : mget roomX.users sock.sid = some uX)
    (hfresh : mget st.rooms newId = none)
    (heq : handleCreateRoom st sock userName newId now = (stN, sockN, ack, emits)) :
    sockN.roomId = some newId
    ∧ (∃ nr u, mget stN.rooms newId = some nr ∧ mget nr.users sock.sid = some u)
    ∧ mget stN.rooms xId = some roomX
    ∧ mget roomX.users sock.sid = some uX
    ∧ emits = []
    ∧ (handleDisconnect stN sockN now2).1.rooms = st.rooms
    ∧ mget (handleDisconnect stN sockN now2).1.rooms xId = some roomX
    ∧ (handleDisconnect stN sockN now2).2 =
        [.toRoomExceptSelf newId (.userLeft sock.sid)] := by
  have hne : xId ≠ newId := by
    intro hh
    rw [hh, hfresh] at hX
    exact Option.noConfusion hX
  have hname := chooseName_ne_empty userName 0
  have hcolor := getNextUserColor_ne_empty st.colorIndex
  simp only [handleCreateRoom, Room.addUser, Room.new, List.length_nil,
    ge_iff_le, Nat.le_zero, OfNat.ofNat_ne_zero, if_false, hname, hcolor,
    or_self, ite_false, false_or, or_false] at heq
  simp only [Prod.mk.injEq] at heq
  obtain ⟨hst, hsock, hack, hemits⟩ := heq
  subst hst hsock hack hemits
  refine ⟨rfl, ?_, ?_, hmem, rfl, ?_, ?_, ?_⟩
  · refine ⟨_,
      { id := sock.sid, name := chooseName userName 0,
        color := getNextUserColor st.colorIndex, cursor := (0, 0),
        joinedAt := now, lastSeen := now },
      mget_mset_self _ _ _, ?_⟩
    simp [mset, mget]
  · rw [mget_mset_ne _ _ _ _ hne, mget_mset_ne _ _ _ _ hne]
    exact hX
  · simp [handleDisconnect, Room.removeUser, mget_mset_self, mset, mget,
      merase, mset_mset_absent _ _ _ _ hfresh, merase_mset_absent _ _ _ hfresh]
  · simp [handleDisconnect, Room.removeUser, mget_mset_self, mset, mget,
      merase, mset_mset_absent _ _ _ _ hfresh, merase_mset_absent _ _ _ hfresh,
      hX]
  · simp [handleDisconnect, Room.removeUser, mget_mset_self, mset, mget,
      merase, mset_mset_absent _ _ _ _ hfresh, merase_mset_absent _ _ _ hfresh]

/-- Witness for claim C10: a session bound to room AAAAAA creates room
BBBBBB, is moved there, and its later disconnect restores the registry to
exactly the pre-create state, AAAAAA still holding its presence. -/
theorem claim_C10_witness :
    (handleCreateRoom
      { rooms := [("AAAAAA",
          { id := "AAAAAA", document := "hi".data,
            users := [("s1",
              { id := "s1", name := "Alice", color := "#FF6B6B",
                cursor := (0, 0), joinedAt := 0, lastSeen := 0 })],
            operations := [], createdAt := 0, lastActivity := 0,
            maxUsers := 10 })],
        colorIndex := 0 }
      { sid := "s1", roomId := some "AAAAAA" } none "BBBBBB" 3).2.1.roomId =
        some "BBBBBB"
    ∧ mget (handleCreateRoom
        { rooms := [("AAAAAA",
            { id := "AAAAAA", document := "hi".data,
              users := [("s1",
                { id := "s1", name := "Alice", color := "#FF6B6B",
                  cursor := (0, 0), joinedAt := 0, lastSeen := 0 })],
              operations := [], createdAt := 0, lastActivity := 0,
              maxUsers := 10 })],
          colorIndex := 0 }
        { sid := "s1", roomId := some "AAAAAA" } none "BBBBBB" 3).1.rooms
        "AAAAAA" =
      some { id := "AAAAAA", document := "hi".data,
             users := [("s1",
               { id := "s1", name := "Alice", color := "#FF6B6B",
                 cursor := (0, 0), joinedAt := 0, lastSeen := 0 })],
             operations := [], createdAt := 0, lastActivity := 0,
             maxUsers := 10 }
    ∧ (handleDisconnect
        (handleCreateRoom
          { rooms := [("AAAAAA",
              { id := "AAAAAA", document := "hi".data,
                users := [("s1",
                  { id := "s1", name := "Alice", color := "#FF6B6B",
                    cursor := (0, 0), joinedAt := 0, lastSeen := 0 })],
                operations := [], createdAt := 0, lastActivity := 0,
                maxUsers := 10 })],
            colorIndex := 0 }
          { sid := "s1", roomId := some "AAAAAA" } none "BBBBBB" 3).1
        (handleCreateRoom
          { rooms := [("AAAAAA",
              { id := "AAAAAA", document := "hi".data,
                users := [("s1",
                  { id := "s1", name := "Alice", color := "#FF6B6B",
                    cursor := (0, 0), joinedAt := 0, lastSeen := 0 })],
                operations := [], createdAt := 0, lastActivity := 0,
                maxUsers := 10 })],
            colorIndex := 0 }
          { sid := "s1", roomId := some "AAAAAA" } none "BBBBBB" 3).2.1
        4).1.rooms =
      [("AAAAAA",
        { id := "AAAAAA", document := "hi".data,
          users := [("s1",
            { id := "s1", name := "Alice", color := "#FF6B6B",
              cursor := (0, 0), joinedAt := 0, lastSeen := 0 })],
          operations := [], createdAt := 0, lastActivity := 0,
          maxUsers := 10 })] := by
  have h := claim_C10_create_ignores_binding
    { rooms := [("AAAAAA",
        { id := "AAAAAA", document := "hi".data,
          users := [("s1",
            { id := "s1", name := "Alice", color := "#FF6B6B",
              cursor := (0, 0), joinedAt := 0, lastSeen := 0 })],
          operations := [], createdAt := 0, lastActivity := 0,
          maxUsers := 10 })],
      colorIndex := 0 }
    { sid := "s1", roomId := some "AAAAAA" } none "BBBBBB" 3 4 "AAAAAA"
    { id := "AAAAAA", document := "hi".data,
      users := [("s1",
        { id := "s1", name := "Alice", color := "#FF6B6B",
          cursor := (0, 0), joinedAt := 0, lastSeen := 0 })],
      operations := [], createdAt := 0, lastActivity := 0, maxUsers := 10 }
    { id := "s1", name := "Alice", color := "#FF6B6B", cursor := (0, 0),
      joinedAt := 0, lastSeen := 0 }
    (handleCreateRoom
      { rooms := [("AAAAAA",
          { id := "AAAAAA", document := "hi".data,
            users := [("s1",
              { id := "s1", name := "Alice", color := "#FF6B6B",
                cursor := (0, 0), joinedAt := 0, lastSeen := 0 })],
            operations := [], createdAt := 0, lastActivity := 0,
            maxUsers := 10 })],
        colorIndex := 0 }
      { sid := "s1", roomId := some "AAAAAA" } none "BBBBBB" 3).1
    (handleCreateRoom
      { rooms := [("AAAAAA",
          { id := "AAAAAA", document := "hi".data,
            users := [("s1",
              { id := "s1", name := "Alice", color := "#FF6B6B",
                cursor := (0, 0), joinedAt := 0, lastSeen := 0 })],
            operations := [], createdAt := 0, lastActivity := 0,
            maxUsers := 10 })],
        colorIndex := 0 }
      { sid := "s1", roomId := some "AAAAAA" } none "BBBBBB" 3).2.1
    (handleCreateRoom
      { rooms := [("AAAAAA",
          { id := "AAAAAA", document := "hi".data,
            users := [("s1",
              { id := "s1", name := "Alice", color := "#FF6B6B",
                cursor := (0, 0), joinedAt := 0, lastSeen := 0 })],
            operations := [], createdAt := 0, lastActivity := 0,
            maxUsers := 10 })],
        colorIndex := 0 }
      { sid := "s1", roomId := some "AAAAAA" } none "BBBBBB" 3).2.2.1
    (handleCreateRoom
      { rooms := [("AAAAAA",
          { id := "AAAAAA", document := "hi".data,
            users := [("s1",
              { id := "s1", name := "Alice", color := "#FF6B6B",
                cursor := (0, 0), joinedAt := 0, lastSeen := 0 })],
            operations := [], createdAt := 0, lastActivity := 0,
            maxUsers := 10 })],
        colorIndex := 0 }
      { sid := "s1", roomId := some "AAAAAA" } none "BBBBBB" 3).2.2.2
    rfl (by decide) (by decide) (by decide) rfl
  exact ⟨h.1, h.2.2.1, h.2.2.2.2.2.1⟩

theorem addUser_full (room : Room) (uid : String) (ud : UserInput) (now : Nat)
    (h : room.users.length ≥ room.maxUsers) :
    room.addUser uid ud now = .error "Room is full" := by
  rw [Room.addUser, if_pos h]

theorem addUser_ok_shape (room : Room) (uid : String) (ud : UserInput)
    (now : Nat) (r1 : Room) (h : room.addUser uid ud now = .ok r1) :
    r1.maxUsers = room.maxUsers ∧ r1.operations = room.operations ∧
    r1.users.length ≤ room.users.length + 1 := by
  rw [Room.addUser] at h
  split at h
  · exact absurd h (by simp)
  · split at h
    · exact absurd h (by simp)
    · simp only [Except.ok.injEq] at h
      subst h
      exact ⟨rfl, rfl, length_mset_le _ _ _⟩

theorem removeUser_shape (room : Room) (uid : String) (now : Nat) :
    (room.removeUser uid now).1.maxUsers = room.maxUsers
    ∧ (room.removeUser uid now).1.operations = room.operations
    ∧ (room.removeUser uid now).1.users.length ≤ room.users.length := by
  rw [Room.removeUser]
  rcases h : mget room.users uid with _ | u
  · simp
  · simpa using length_merase_le room.users uid

theorem applyOperation_shape (room : Room) (e : EnhancedOp) (now : Nat) :
    (room.applyOperation e now).1.maxUsers = room.maxUsers
    ∧ (room.applyOperation e now).1.users = room.users
    ∧ (room.operations.length ≤ 1000 →
        (room.applyOperation e now).1.operations.length ≤ 1000) := by
  rw [Room.applyOperation]
  by_cases hv : room.isValidOperation e.base
  · rw [if_neg (by simp [hv])]
    refine ⟨rfl, rfl, ?_⟩
    intro hlen
    dsimp only
    split
    · simp only [List.length_drop, List.length_append, List.length_singleton]
      omega
    · rename_i hle
      simp only [List.length_append, List.length_singleton] at hle ⊢
      omega
  · rw [if_pos (by simp [hv])]
    exact ⟨rfl, rfl, fun h => h⟩

theorem step_inv (r : Room) (a : RoomAction) (t : Nat)
    (h1 : r.users.length ≤ r.maxUsers) (h2 : r.operations.length ≤ 1000) :
    (r.step a t).maxUsers = r.maxUsers
    ∧ (r.step a t).users.length ≤ r.maxUsers
    ∧ (r.step a t).operations.length ≤ 1000 := by
  cases a with
  | addU uid ud =>
      rcases ha : r.addUser uid ud t with e | r1
      · rw [Room.step, ha]
        exact ⟨rfl, h1, h2⟩
      · rw [Room.step, ha]
        have hcap : ¬ r.users.length ≥ r.maxUsers := by
          intro hc
          rw [addUser_full r uid ud t hc] at ha
          exact Except.noConfusion ha
        obtain ⟨hm, ho, hu⟩ := addUser_ok_shape r uid ud t r1 ha
        refine ⟨hm, ?_, ?_⟩
        · show r1.users.length ≤ r.maxUsers
          omega
        · show r1.operations.length ≤ 1000
          rw [ho]
          exact h2
  | removeU uid =>
      obtain ⟨hm, ho, hu⟩ := removeUser_shape r uid t
      rw [Room.step]
      refine ⟨hm, by omega, ?_⟩
      rw [ho]
      exact h2
  | applyO e =>
      obtain ⟨hm, hu, ho⟩ := applyOperation_shape r e t
      rw [Room.step]
      refine ⟨hm, ?_, ho h2⟩
      rw [hu]
      exact h1

theorem run_inv (actions : List (RoomAction × Nat)) (r : Room)
    (h1 : r.users.length ≤ r.maxUsers) (h2 : r.operations.length ≤ 1000) :
    (r.run actions).maxUsers = r.maxUsers
    ∧ (r.run actions).users.length ≤ r.maxUsers
    ∧ (r.run actions).operations.length ≤ 1000 := by
  induction actions generalizing r with
  | nil => exact ⟨rfl, h1, h2⟩
  | cons hd tl ih =>
      obtain ⟨hm, hu, ho⟩ := step_inv r hd.1 hd.2 h1 h2
      have hstep := ih (r.step hd.1 hd.2) (by rw [hm]; exact hu) ho
      have hrun : r.run (hd :: tl) = (r.step hd.1 hd.2).run tl := by
        simp [Room.run]
      rw [hrun]
      refine ⟨hstep.1.trans hm, ?_, hstep.2.2⟩
      calc ((r.step hd.1 hd.2).run tl).users.length
          ≤ (r.step hd.1 hd.2).maxUsers := hstep.2.1
        _ = r.maxUsers := hm

/-- Claim C6: from a fresh room, any sequence of addUser, removeUser and
applyOperation calls preserves the member bound 10 and the history bound
1000; addUser rejects Room is full at capacity, and applyOperation keeps
the history at no more than the most recent 1000 entries. -/
theorem claim_C6_invariants (id : String) (t0 : Nat)
    (actions : List (RoomAction × Nat)) :
    ((Room.new id t0).run actions).users.length ≤ 10
    ∧ ((Room.new id t0).run actions).operations.length ≤ 1000
    ∧ (∀ (room : Room) (uid : String) (ud : UserInput) (now : Nat),
        room.users.length = room.maxUsers →
        room.addUser uid ud now = .error "Room is full")
    ∧ (∀ (room : Room) (e : EnhancedOp) (now : Nat),
        room.operations.length ≤ 1000 →
        (room.applyOperation e now).1.operations.length ≤ 1000) := by
  have h := run_inv actions (Room.new id t0) (by simp [Room.new])
    (by simp [Room.new])
  refine ⟨h.2.1, h.2.2, ?_, ?_⟩
  · intro room uid ud now hfull
    exact addUser_full room uid ud now (le_of_eq hfull.symm)
  · intro room e now hlen
    exact (applyOperation_shape room e now).2.2 hlen

/-- Witness for claim C6: the empty action sequence on a fresh room, and the
Room is full rejection at a concrete room at capacity. -/
theorem claim_C6_witness :
    ((Room.new "AAAAAA" 0).run []).users.length ≤ 10
    ∧ Room.addUser
        { id := "AAAAAA", document := [], users := [], operations := [],
          createdAt := 0, lastActivity := 0, maxUsers := 0 } "u1"
        { id := "u1", name := "Alice", color := "#FF6B6B", cursor := (0, 0) }
        5 = .error "Room is full" :=
  ⟨(claim_C6_invariants "AAAAAA" 0 []).1,
   (claim_C6_invariants "AAAAAA" 0 []).2.2.1 _ "u1" _ 5 rfl⟩

/-- Claim C8: every GET /health request is handled by the first registered
/health route, whose body is the basic one (status, room count, timestamp);
it is never the enhanced body with the server block and the per-room
statistics list, because Express dispatches to the first matching
registration. -/
theorem claim_C8_health_first_registration (env : HttpEnv) (st : ServerState) :
    dispatchGet env st "/health" =
      some (.healthBasic "ok" st.rooms.length env.now)
    ∧ (∀ s t u m rc rl,
        HttpResponse.healthBasic "ok" st.rooms.length env.now ≠
          .healthEnhanced s t u m rc rl) := by
  constructor
  · rfl
  · intro s t u m rc rl h
    exact HttpResponse.noConfusion h

end Codelive
